import Mathlib

/-!
Verification of the screenshot service in src/main.py.

The embedding models the two logic-bearing operations of the service and
their collaborators:

- `planTimestamps` embeds the timestamp math of `process_video`
  (lines 56-61): `interval = duration / (num_screenshots + 1)` and
  `int(interval * (i + 1))` for `i in range(num_screenshots)`, where
  Python `int()` truncates a float toward zero (`pyTrunc`).
- `processVideo` embeds `process_video` (lines 47-81).  The external
  prober (`get_video_duration`, lines 36-45) and the external frame
  extractor are abstracted by a `Collab` record; the exit code of each
  `ffmpeg` invocation is recorded in the trace but, exactly as in the
  source (line 73 calls `subprocess.run` without `check=True`), it has
  no influence on control flow.
- `createScreenshots` embeds the `create_screenshots` endpoint
  (lines 83-133): extension allow-list check, job directory creation,
  upload persistence, processing, deletion of the uploaded video on
  success, URL assembly, and `rmtree` plus HTTP 500 on failure.
- `startupInit` embeds the startup line 31,
  `os.makedirs(TEMP_DIR, exist_ok=True)`.
- `cleanupScreenshots` embeds the delete endpoint (lines 136-143).

Filesystem paths are modelled as component lists (`PyPath`), with
`os.path.join` appending a component and `os.path.basename` taking the
last component.  Each operation returns the list of externally visible
events it performs (`Event`) together with its result, so that claims
about ordering ("before any external tool is invoked") and cleanup are
statable.
-/

namespace ScreenshotApi

deriving instance DecidableEq for Except

/-- Python `int()` on a float truncates toward zero (line 61 of main.py). -/
def pyTrunc (q : ℚ) : ℤ := if q < 0 then -⌊-q⌋ else ⌊q⌋

/-- Python `f"{n:03d}"`: decimal rendering left-padded with zeros to width 3. -/
def pad3 (n : ℕ) : String :=
  String.join (List.replicate (3 - (toString n).length) "0") ++ toString n

/-- The file name `f"screenshot_{i:03d}.jpg"` used at line 62 of main.py. -/
def screenshotName (i : ℕ) : String := "screenshot_" ++ pad3 i ++ ".jpg"

/-- A filesystem path, modelled as its list of components. -/
abbrev PyPath := List String

/-- Embeds `os.path.join(dir, component)`. -/
def pathJoin (dir : PyPath) (component : String) : PyPath := dir ++ [component]

/-- Embeds `os.path.basename`: the last path component. -/
def basename (p : PyPath) : String := p.getLastD ""

/-- Externally visible actions performed by the service, in order. -/
inductive Event where
  | probe (videoPath : PyPath)
  | extract (timestamp : ℤ) (outputFile : PyPath) (quality : ℤ) (exitCode : ℤ)
  | mkdir (dir : PyPath)
  | saveUpload (path : PyPath)
  | removeFile (path : PyPath)
  | rmtree (dir : PyPath)
  deriving Repr, DecidableEq

/-- The behavior of the two external collaborators for one request:
the result of the `ffprobe` invocation (`get_video_duration`, which either
returns a parsed duration or raises), and the exit code of the i-th
`ffmpeg` invocation. -/
structure Collab where
  probeResult : Except String ℚ
  extractExit : ℕ → ℤ

/-- Python exceptions that can escape `process_video`. -/
inductive PyError where
  | probeError (msg : String)
  | zeroDivisionError
  deriving Repr, DecidableEq

/-- The message `str(e)` of the exception, interpolated into the HTTP 500
detail at line 133 of main.py. -/
def pyErrorMessage : PyError → String
  | PyError.probeError msg => msg
  | PyError.zeroDivisionError => "float division by zero"

/-- The timestamp sequence computed by `process_video` (lines 57-61):
`interval = duration / (num_screenshots + 1)`, and for each
`i in range(num_screenshots)` the value `int(interval * (i + 1))`. -/
def planTimestamps (duration : ℚ) (count : ℤ) : List ℤ :=
  (List.range count.toNat).map
    (fun (i : ℕ) => pyTrunc (duration / ((count : ℚ) + 1) * ((i : ℚ) + 1)))

/-- The output file paths `os.path.join(output_dir, f"screenshot_{i+1:03d}.jpg")`
accumulated in `screenshot_paths` (lines 62, 74). -/
def outputFiles (outputDir : PyPath) (count : ℤ) : List PyPath :=
  (List.range count.toNat).map (fun i => pathJoin outputDir (screenshotName (i + 1)))

/-- Embeds `process_video` (lines 47-81 of main.py).  The duration is probed
first; `interval = duration / (num_screenshots + 1)` raises
`ZeroDivisionError` exactly when `num_screenshots + 1 = 0`; otherwise one
`ffmpeg` extraction runs per loop iteration and its exit code is ignored
(line 73 uses `subprocess.run` without `check=True`), so the path list is
returned unconditionally. -/
def processVideo (C : Collab) (videoPath outputDir : PyPath)
    (numScreenshots quality : ℤ) : List Event × Except PyError (List PyPath) :=
  match C.probeResult with
  | .error msg => ([Event.probe videoPath], .error (PyError.probeError msg))
  | .ok duration =>
      if numScreenshots + 1 = 0 then
        ([Event.probe videoPath], .error PyError.zeroDivisionError)
      else
        (Event.probe videoPath ::
            (List.range numScreenshots.toNat).map (fun (i : ℕ) =>
              Event.extract
                (pyTrunc (duration / ((numScreenshots : ℚ) + 1) * ((i : ℚ) + 1)))
                (pathJoin outputDir (screenshotName (i + 1))) quality
                (C.extractExit i)),
          .ok (outputFiles outputDir numScreenshots))

/-- ASCII lowercasing of one character, as Python `str.lower()` does on
the ASCII range relevant to the extension check. -/
def lowerChar (c : Char) : Char :=
  if 65 ≤ c.toNat ∧ c.toNat ≤ 90 then Char.ofNat (c.toNat + 32) else c

/-- Embeds Python `str.lower()` (characterwise lowercasing). -/
def pyLower (s : String) : String := String.mk (s.data.map lowerChar)

/-- Embeds Python `str.endswith(suffix)`: the character sequence of
`suffix` is a suffix of that of `s`. -/
def pyEndsWith (s suffix : String) : Bool := suffix.data.isSuffixOf s.data

/-- The extension allow-list check of line 93:
`video.filename.lower().endswith((".mp4", ".avi", ".mov", ".mkv"))`. -/
def allowedFilename (filename : String) : Bool :=
  pyEndsWith (pyLower filename) ".mp4" || pyEndsWith (pyLower filename) ".avi" ||
    pyEndsWith (pyLower filename) ".mov" || pyEndsWith (pyLower filename) ".mkv"

/-- One entry of the `screenshots` array of the JSON response (lines 116-122). -/
structure Screenshot where
  id : ℕ
  filename : String
  url : String
  deriving Repr, DecidableEq

/-- The JSON response body of a successful upload (lines 124-128). -/
structure ScreenshotResponse where
  jobId : String
  screenshotDir : String
  screenshots : List Screenshot
  deriving Repr, DecidableEq

/-- An HTTP error response (`HTTPException(status_code, detail)`). -/
inductive HttpError where
  | httpException (statusCode : ℕ) (detail : String)
  deriving Repr, DecidableEq

/-- The working-directory root, `TEMP_DIR = "temp"` (line 30), as a path. -/
def TEMP_DIR : PyPath := ["temp"]

/-- Embeds the `create_screenshots` endpoint (lines 83-133 of main.py).
The `uuid.uuid4()` job identifier is a parameter, since it is external
nondeterminism.  The allow-list check happens before any event; on any
exception from `process_video` the job directory is removed and an
HTTP 500 is raised; on success the uploaded video is removed and the
response enumerates the screenshots from 1, with URLs rooted at
`/temp/{job_id}`. -/
def createScreenshots (C : Collab) (filename : String) (jobId : String)
    (numScreenshots quality : ℤ) :
    List Event × Except HttpError ScreenshotResponse :=
  if allowedFilename filename = false then
    ([], .error (HttpError.httpException 400 "Unsupported file format"))
  else
    let jobDir := pathJoin TEMP_DIR jobId
    let videoPath := pathJoin jobDir filename
    let pv := processVideo C videoPath jobDir numScreenshots quality
    match pv.2 with
    | .error e =>
        (Event.mkdir jobDir :: Event.saveUpload videoPath ::
            pv.1 ++ [Event.rmtree jobDir],
          .error (HttpError.httpException 500
            ("Error processing video: " ++ pyErrorMessage e)))
    | .ok paths =>
        (Event.mkdir jobDir :: Event.saveUpload videoPath ::
            pv.1 ++ [Event.removeFile videoPath],
          .ok { jobId := jobId
                screenshotDir := "/temp/" ++ jobId
                screenshots := paths.enum.map (fun p =>
                  { id := p.1 + 1
                    filename := basename p.2
                    url := "/temp/" ++ jobId ++ "/" ++ basename p.2 }) })

/-- The filesystem state relevant to startup and cleanup: whether the
working-directory root exists, and which job directories exist under it. -/
structure FS where
  tempRootExists : Bool
  jobDirs : List String
  deriving Repr, DecidableEq

/-- Embeds line 31, `os.makedirs(TEMP_DIR, exist_ok=True)`: creates the
root if missing and leaves its contents untouched. -/
def startupInit (fs : FS) : FS := { fs with tempRootExists := true }

/-- Embeds the `cleanup_screenshots` endpoint (lines 136-143):
`job_dir = os.path.join(TEMP_DIR, job_id)`; if it exists it is removed
with `shutil.rmtree` and a success message returned, otherwise
`HTTPException(404, "Job not found")` is raised. -/
def cleanupScreenshots (fs : FS) (jobId : String) :
    FS × Except HttpError String :=
  if jobId ∈ fs.jobDirs then
    ({ fs with jobDirs := fs.jobDirs.filter (fun d => !(d == jobId)) },
      .ok ("Cleaned up job " ++ jobId))
  else
    (fs, .error (HttpError.httpException 404 "Job not found"))

/-- The timestamp of an extraction event, if the event is one. -/
def eventTimestamp : Event → Option ℤ
  | Event.extract t _ _ _ => some t
  | _ => none

/-- The timestamps of the extractor invocations in a trace, in order. -/
def extractedTimestamps (trace : List Event) : List ℤ :=
  trace.filterMap eventTimestamp

/-- The exit code of an extraction event, if the event is one. -/
def eventExitCode : Event → Option ℤ
  | Event.extract _ _ _ e => some e
  | _ => none

/-- The exit codes of the extractor invocations in a trace, in order. -/
def extractExitCodes (trace : List Event) : List ℤ :=
  trace.filterMap eventExitCode

/-- Whether a trace contains a `shutil.rmtree` of some directory. -/
def mentionsRmtree (trace : List Event) : Bool :=
  trace.any (fun e => match e with | Event.rmtree _ => true | _ => false)

/-- A collaborator whose probe succeeds with the given duration and whose
extractions all exit 0. -/
def okProbe (d : ℚ) : Collab :=
  { probeResult := .ok d, extractExit := fun _ => 0 }

end ScreenshotApi

namespace ScreenshotApi

/-! ### Helper lemmas -/

theorem pyTrunc_eq_floor (q : ℚ) (h : 0 ≤ q) : pyTrunc q = ⌊q⌋ := by
  unfold pyTrunc
  rw [if_neg (not_lt.mpr h)]

theorem pyTrunc_nonpos (q : ℚ) (h : q ≤ 0) : pyTrunc q ≤ 0 := by
  unfold pyTrunc
  by_cases hq : q < 0
  · rw [if_pos hq]
    have : (0 : ℤ) ≤ ⌊-q⌋ := Int.floor_nonneg.mpr (by linarith)
    omega
  · rw [if_neg hq]
    exact Int.floor_nonpos h

theorem pyTrunc_mono_of_nonneg (a b : ℚ) (h0 : 0 ≤ a) (hab : a ≤ b) :
    pyTrunc a ≤ pyTrunc b := by
  rw [pyTrunc_eq_floor a h0, pyTrunc_eq_floor b (h0.trans hab)]
  exact Int.floor_mono hab

theorem basename_pathJoin (dir : PyPath) (s : String) :
    basename (pathJoin dir s) = s := by
  unfold basename pathJoin
  exact List.getLastD_concat _ _ _

theorem filterMap_eventTimestamp_map {α : Type} (l : List α) (t : α → ℤ)
    (p : α → PyPath) (q e : α → ℤ) :
    List.filterMap eventTimestamp
        (l.map (fun a => Event.extract (t a) (p a) (q a) (e a))) = l.map t := by
  induction l with
  | nil => rfl
  | cons a l ih => simp only [List.map_cons, List.filterMap_cons, eventTimestamp, ih]

theorem enum_map_range {α : Type} (n : ℕ) (f : ℕ → α) :
    ((List.range n).map f).enum = (List.range n).map (fun i => (i, f i)) := by
  apply List.ext_getElem
  · simp
  · intro i h1 h2
    simp [List.getElem_enum]

theorem planTimestamps_length (d : ℚ) (c : ℤ) :
    (planTimestamps d c).length = c.toNat := by
  simp [planTimestamps]

theorem planTimestamps_eq_floor (d : ℚ) (c : ℤ) (hd : 0 < d) (hc : 0 < c) :
    planTimestamps d c =
      (List.range c.toNat).map (fun (i : ℕ) => ⌊((i : ℚ) + 1) * d / ((c : ℚ) + 1)⌋) := by
  unfold planTimestamps
  refine List.map_congr_left ?_
  intro i hi
  have hcq : (0 : ℚ) < (c : ℚ) := by exact_mod_cast hc
  have hc1 : (0 : ℚ) < (c : ℚ) + 1 := by linarith
  have harg : 0 ≤ d / ((c : ℚ) + 1) * ((i : ℚ) + 1) := by
    apply mul_nonneg (le_of_lt (div_pos hd hc1))
    positivity
  rw [pyTrunc_eq_floor _ harg]
  congr 1
  ring

theorem planTimestamps_pairwise_le (d : ℚ) (c : ℤ) (hd : 0 < d) (hc : 0 < c) :
    (planTimestamps d c).Pairwise (fun a b => a ≤ b) := by
  unfold planTimestamps
  refine List.pairwise_map.mpr ?_
  refine (List.pairwise_lt_range _).imp ?_
  intro a b hab
  have hcq : (0 : ℚ) < (c : ℚ) := by exact_mod_cast hc
  have hc1 : (0 : ℚ) < (c : ℚ) + 1 := by linarith
  have hr : 0 ≤ d / ((c : ℚ) + 1) := le_of_lt (div_pos hd hc1)
  have h0 : 0 ≤ d / ((c : ℚ) + 1) * ((a : ℚ) + 1) := by
    apply mul_nonneg hr
    positivity
  apply pyTrunc_mono_of_nonneg _ _ h0
  have hcast : ((a : ℚ) + 1) ≤ ((b : ℚ) + 1) := by
    have : (a : ℚ) ≤ (b : ℚ) := by exact_mod_cast le_of_lt hab
    linarith
  exact mul_le_mul_of_nonneg_left hcast hr

theorem planTimestamps_bounds (d : ℚ) (c : ℤ) (hd : 0 < d) (hc : 0 < c) :
    ∀ t ∈ planTimestamps d c, 0 ≤ t ∧ (t : ℚ) < d := by
  intro t ht
  unfold planTimestamps at ht
  rw [List.mem_map] at ht
  obtain ⟨i, hi, rfl⟩ := ht
  rw [List.mem_range] at hi
  have hcq : (0 : ℚ) < (c : ℚ) := by exact_mod_cast hc
  have hc1 : (0 : ℚ) < (c : ℚ) + 1 := by linarith
  have hx0 : 0 ≤ d / ((c : ℚ) + 1) * ((i : ℚ) + 1) := by
    apply mul_nonneg (le_of_lt (div_pos hd hc1))
    positivity
  rw [pyTrunc_eq_floor _ hx0]
  have hile : ((i : ℚ) + 1) ≤ (c : ℚ) := by
    have h2 : ((i : ℤ) + 1) ≤ c := by
      have := Int.toNat_of_nonneg (le_of_lt hc)
      omega
    exact_mod_cast h2
  have hxd : d / ((c : ℚ) + 1) * ((i : ℚ) + 1) < d := by
    rw [div_mul_eq_mul_div, div_lt_iff₀ hc1]
    have hii : ((i : ℚ) + 1) < (c : ℚ) + 1 := by linarith
    exact mul_lt_mul_of_pos_left hii hd
  constructor
  · exact Int.floor_nonneg.mpr hx0
  · calc ((⌊d / ((c : ℚ) + 1) * ((i : ℚ) + 1)⌋ : ℚ)) ≤ _ := Int.floor_le _
    _ < d := hxd

theorem processVideo_ok (C : Collab) (vp od : PyPath) (n q : ℤ) (d : ℚ)
    (hp : C.probeResult = .ok d) (hn : n + 1 ≠ 0) :
    processVideo C vp od n q =
      (Event.probe vp ::
          (List.range n.toNat).map (fun (i : ℕ) =>
            Event.extract (pyTrunc (d / ((n : ℚ) + 1) * ((i : ℚ) + 1)))
              (pathJoin od (screenshotName (i + 1))) q (C.extractExit i)),
        .ok (outputFiles od n)) := by
  simp only [processVideo, hp, if_neg hn]

theorem extractedTimestamps_processVideo (C : Collab) (vp od : PyPath) (n q : ℤ) (d : ℚ)
    (hp : C.probeResult = .ok d) (hn : n + 1 ≠ 0) :
    extractedTimestamps (processVideo C vp od n q).1 = planTimestamps d n := by
  rw [processVideo_ok C vp od n q d hp hn]
  unfold extractedTimestamps planTimestamps
  rw [List.filterMap_cons]
  simp only [eventTimestamp]
  exact filterMap_eventTimestamp_map (List.range n.toNat)
    (fun i => pyTrunc (d / ((n : ℚ) + 1) * ((i : ℚ) + 1)))
    (fun i => pathJoin od (screenshotName (i + 1))) (fun _ => q) C.extractExit

theorem createScreenshots_ok (C : Collab) (filename jobId : String) (n q : ℤ) (d : ℚ)
    (hf : allowedFilename filename = true) (hp : C.probeResult = .ok d)
    (hn : n + 1 ≠ 0) :
    createScreenshots C filename jobId n q =
      (Event.mkdir (pathJoin TEMP_DIR jobId) ::
          Event.saveUpload (pathJoin (pathJoin TEMP_DIR jobId) filename) ::
          (Event.probe (pathJoin (pathJoin TEMP_DIR jobId) filename) ::
            (List.range n.toNat).map (fun (i : ℕ) =>
              Event.extract (pyTrunc (d / ((n : ℚ) + 1) * ((i : ℚ) + 1)))
                (pathJoin (pathJoin TEMP_DIR jobId) (screenshotName (i + 1))) q
                (C.extractExit i)))
            ++ [Event.removeFile (pathJoin (pathJoin TEMP_DIR jobId) filename)],
        .ok { jobId := jobId
              screenshotDir := "/temp/" ++ jobId
              screenshots := (List.range n.toNat).map (fun (i : ℕ) =>
                { id := i + 1
                  filename := screenshotName (i + 1)
                  url := "/temp/" ++ jobId ++ "/" ++ screenshotName (i + 1) }) }) := by
  have hpv := processVideo_ok C (pathJoin (pathJoin TEMP_DIR jobId) filename)
      (pathJoin TEMP_DIR jobId) n q d hp hn
  simp only [createScreenshots, hf, Bool.true_eq_false, if_false, hpv]
  congr 1
  congr 1
  rw [outputFiles, enum_map_range, List.map_map]
  congr 1

end ScreenshotApi

namespace ScreenshotApi

/-! ### Claim theorems -/

/-- C1 counterexample: for `duration = 1` and `count = 2` the plan is
`[0, 0]` — not strictly increasing, and its timestamps are not strictly
positive, refuting the claim as stated. -/
theorem C1_counterexample :
    planTimestamps 1 2 = [0, 0] ∧
      ¬ (planTimestamps 1 2).Pairwise (fun a b => a < b) ∧
      ¬ (∀ t ∈ planTimestamps 1 2, 0 < t) := by
  have h : planTimestamps 1 2 = [0, 0] := by
    have hr : List.range (2 : ℤ).toNat = [0, 1] := by decide
    unfold planTimestamps
    rw [hr]
    norm_num [pyTrunc]
  refine ⟨h, ?_, ?_⟩ <;> rw [h] <;> decide

/-- C1 (amended): for every `count > 0` and `duration > 0`, the plan has
exactly `count` timestamps, the i-th (1-indexed) being
`⌊i * duration / (count + 1)⌋`; they are nondecreasing (strict increase
can fail for short durations), and each satisfies `0 ≤ t < duration`
(the lower bound is not strict: early timestamps truncate to 0 when
`duration < count + 1`). -/
theorem C1_plan_amended (d : ℚ) (c : ℤ) (hc : 0 < c) (hd : 0 < d) :
    planTimestamps d c =
        (List.range c.toNat).map (fun (i : ℕ) => ⌊((i : ℚ) + 1) * d / ((c : ℚ) + 1)⌋) ∧
      (planTimestamps d c).length = c.toNat ∧
      (planTimestamps d c).Pairwise (fun a b => a ≤ b) ∧
      ∀ t ∈ planTimestamps d c, 0 ≤ t ∧ (t : ℚ) < d :=
  ⟨planTimestamps_eq_floor d c hd hc, planTimestamps_length d c,
    planTimestamps_pairwise_le d c hd hc, planTimestamps_bounds d c hd hc⟩

/-- C1 witness: the amended statement instantiated at `duration = 4`,
`count = 3`. -/
theorem C1_plan_amended_witness :
    planTimestamps 4 3 =
        (List.range (3 : ℤ).toNat).map
          (fun (i : ℕ) => ⌊((i : ℚ) + 1) * 4 / ((3 : ℤ) + 1 : ℚ)⌋) ∧
      (planTimestamps 4 3).length = (3 : ℤ).toNat ∧
      (planTimestamps 4 3).Pairwise (fun a b => a ≤ b) ∧
      ∀ t ∈ planTimestamps 4 3, 0 ≤ t ∧ (t : ℚ) < 4 :=
  C1_plan_amended 4 3 (by norm_num) (by norm_num)

/-- A collaborator whose probe reports 100 seconds and whose third
extraction call (index 2, zero-based) exits with code 1. -/
def failingThirdExtraction : Collab :=
  { probeResult := .ok 100, extractExit := fun i => if i = 2 then 1 else 0 }

/-- C2: a five-screenshot job whose third extraction call exits non-zero
still returns a success response listing all five artifacts; the
extraction sequence runs to completion (exit codes `[0,0,1,0,0]` all
recorded) and no `rmtree` happens — the code ignores the extractor's
exit status, so the claimed abort/rollback/error never occurs. -/
theorem C2_extraction_failure_ignored :
    (createScreenshots failingThirdExtraction "video.mp4" "job1" 5 2).2 =
        .ok { jobId := "job1"
              screenshotDir := "/temp/job1"
              screenshots := [
                { id := 1, filename := "screenshot_001.jpg",
                  url := "/temp/job1/screenshot_001.jpg" },
                { id := 2, filename := "screenshot_002.jpg",
                  url := "/temp/job1/screenshot_002.jpg" },
                { id := 3, filename := "screenshot_003.jpg",
                  url := "/temp/job1/screenshot_003.jpg" },
                { id := 4, filename := "screenshot_004.jpg",
                  url := "/temp/job1/screenshot_004.jpg" },
                { id := 5, filename := "screenshot_005.jpg",
                  url := "/temp/job1/screenshot_005.jpg" }] } ∧
      extractExitCodes
          (createScreenshots failingThirdExtraction "video.mp4" "job1" 5 2).1 =
        [0, 0, 1, 0, 0] ∧
      mentionsRmtree
          (createScreenshots failingThirdExtraction "video.mp4" "job1" 5 2).1 = false :=
  ⟨by decide, by decide, by decide⟩

/-- C3 counterexample: with a successfully probed duration of 10 and
`count = 0`, processing succeeds with an empty path list after invoking
the probe — no `InvalidParameterError`, and no validation before probing. -/
theorem C3_counterexample :
    processVideo (okProbe 10) ["temp", "j", "v.mp4"] ["temp", "j"] 0 2 =
      ([Event.probe ["temp", "j", "v.mp4"]], .ok []) := by decide

/-- C3 (amended): `count ≤ 0` is never validated.  When the probe
succeeds, any `count ≤ 0` other than `-1` makes `process_video` return
an empty path list after probing, and `count = -1` raises
`ZeroDivisionError` — also after probing.  In no case is an
`InvalidParameterError` produced before the probe. -/
theorem C3_no_count_validation (C : Collab) (d : ℚ) (videoPath outputDir : PyPath)
    (c q : ℤ) (hp : C.probeResult = .ok d) (hc : c ≤ 0) :
    (c ≠ -1 →
      processVideo C videoPath outputDir c q =
        ([Event.probe videoPath], .ok [])) ∧
    (c = -1 →
      processVideo C videoPath outputDir c q =
        ([Event.probe videoPath], .error PyError.zeroDivisionError)) := by
  constructor
  · intro hne
    have hn : c + 1 ≠ 0 := by omega
    rw [processVideo_ok C videoPath outputDir c q d hp hn]
    have h0 : c.toNat = 0 := Int.toNat_eq_zero.mpr hc
    simp [h0, outputFiles]
  · intro he
    subst he
    simp only [processVideo, hp]
    rw [if_pos (by norm_num)]

/-- C3 witness: the amended statement instantiated at `count = 0` with a
probed duration of 7. -/
theorem C3_no_count_validation_witness :
    processVideo (okProbe 7) ["temp", "j", "v.mp4"] ["temp", "j"] 0 2 =
      ([Event.probe ["temp", "j", "v.mp4"]], .ok []) :=
  (C3_no_count_validation (okProbe 7) 7 ["temp", "j", "v.mp4"] ["temp", "j"] 0 2
      rfl (by norm_num)).1 (by norm_num)

/-- C4 counterexample: `plan(duration = 0, count = 5)` does not fail —
it yields five timestamps all equal to 0, and `process_video` returns
the five screenshot paths successfully. -/
theorem C4_counterexample :
    planTimestamps 0 5 = [0, 0, 0, 0, 0] ∧
      (processVideo (okProbe 0) ["temp", "j", "v.mp4"] ["temp", "j"] 5 2).2 =
        .ok [["temp", "j", "screenshot_001.jpg"], ["temp", "j", "screenshot_002.jpg"],
          ["temp", "j", "screenshot_003.jpg"], ["temp", "j", "screenshot_004.jpg"],
          ["temp", "j", "screenshot_005.jpg"]] := by
  constructor
  · have hr : List.range (5 : ℤ).toNat = [0, 1, 2, 3, 4] := by decide
    unfold planTimestamps
    rw [hr]
    norm_num [pyTrunc]
  · decide

/-- C4 (amended): `duration ≤ 0` is never validated: for every probed
duration `d ≤ 0` and `count > 0`, processing succeeds with the full path
list, and the plan still contains `count` timestamps, all `≤ 0` — no
`UnprocessableMediaError` exists in the code. -/
theorem C4_no_duration_validation (C : Collab) (d : ℚ) (videoPath outputDir : PyPath)
    (c q : ℤ) (hp : C.probeResult = .ok d) (hd : d ≤ 0) (hc : 0 < c) :
    (processVideo C videoPath outputDir c q).2 = .ok (outputFiles outputDir c) ∧
      (planTimestamps d c).length = c.toNat ∧
      ∀ t ∈ planTimestamps d c, t ≤ 0 := by
  have hn : c + 1 ≠ 0 := by omega
  refine ⟨by rw [processVideo_ok C videoPath outputDir c q d hp hn],
    planTimestamps_length d c, ?_⟩
  intro t ht
  unfold planTimestamps at ht
  rw [List.mem_map] at ht
  obtain ⟨i, hi, rfl⟩ := ht
  apply pyTrunc_nonpos
  have hcq : (0 : ℚ) < (c : ℚ) := by exact_mod_cast hc
  have hc1 : (0 : ℚ) < (c : ℚ) + 1 := by linarith
  have hdiv : d / ((c : ℚ) + 1) ≤ 0 := by
    rw [div_nonpos_iff]
    right
    exact ⟨hd, le_of_lt hc1⟩
  have hpos : (0 : ℚ) ≤ (i : ℚ) + 1 := by positivity
  nlinarith

/-- C4 witness: the amended statement instantiated at `duration = 0`,
`count = 5`. -/
theorem C4_no_duration_validation_witness :
    (processVideo (okProbe 0) ["temp", "j", "v.mp4"] ["temp", "j"] 5 2).2 =
        .ok (outputFiles ["temp", "j"] 5) ∧
      (planTimestamps 0 5).length = (5 : ℤ).toNat ∧
      ∀ t ∈ planTimestamps 0 5, t ≤ 0 :=
  C4_no_duration_validation (okProbe 0) 0 ["temp", "j", "v.mp4"] ["temp", "j"] 5 2
    rfl (by norm_num) (by norm_num)

/-- C5: `plan(duration = 33, count = 10)` yields exactly the timestamps
`3, 6, 9, ..., 30`, i.e. the i-th timestamp is `3 * i`. -/
theorem C5_plan_33_10 :
    planTimestamps 33 10 = [3, 6, 9, 12, 15, 18, 21, 24, 27, 30] := by
  have hr : List.range (10 : ℤ).toNat = [0, 1, 2, 3, 4, 5, 6, 7, 8, 9] := by decide
  unfold planTimestamps
  rw [hr]
  norm_num [pyTrunc]

/-- C6 counterexample: a startup over a root that still holds a job
directory from a previous run keeps that directory — the root is not
wiped, refuting the claim. -/
theorem C6_counterexample :
    (startupInit { tempRootExists := false, jobDirs := ["leftover"] }).jobDirs =
        ["leftover"] ∧
      "leftover" ∈ (startupInit { tempRootExists := false, jobDirs := ["leftover"] }).jobDirs :=
  ⟨rfl, by decide⟩

/-- C6 (amended): on service start the working-directory root is created
if missing (`exist_ok=True`) but never wiped: every job directory from a
previous run survives unchanged. -/
theorem C6_startup_amended (fs : FS) :
    (startupInit fs).tempRootExists = true ∧ (startupInit fs).jobDirs = fs.jobDirs :=
  ⟨rfl, rfl⟩

/-- C7: any upload whose filename fails the extension allow-list is
rejected with HTTP 400 "Unsupported file format" and an empty event
trace: no probe, no extraction, no directory creation — nothing happens
before the rejection. -/
theorem C7_reject_before_side_effects (C : Collab) (filename jobId : String)
    (n q : ℤ) (h : allowedFilename filename = false) :
    createScreenshots C filename jobId n q =
      ([], .error (HttpError.httpException 400 "Unsupported file format")) := by
  simp [createScreenshots, h]

/-- C7 witness: the upload of `clip.txt` is rejected with no side
effects. -/
theorem C7_reject_witness :
    createScreenshots (okProbe 1) "clip.txt" "job1" 10 2 =
      ([], .error (HttpError.httpException 400 "Unsupported file format")) :=
  C7_reject_before_side_effects (okProbe 1) "clip.txt" "job1" 10 2 (by decide)

/-- C8: every successful job reports artifacts in plan order: the
response enumerates exactly `count` screenshots, the i-th (1-indexed)
carrying id `i` and the i-th output file name, the extractor was invoked
exactly at the planned timestamps in plan order, and the planned
timestamps are nondecreasing. -/
theorem C8_artifacts_match_plan (C : Collab) (d : ℚ) (filename jobId : String)
    (c q : ℤ) (hp : C.probeResult = .ok d) (hf : allowedFilename filename = true)
    (hc : 0 < c) (hd : 0 < d) :
    (createScreenshots C filename jobId c q).2 =
        .ok { jobId := jobId
              screenshotDir := "/temp/" ++ jobId
              screenshots := (List.range c.toNat).map (fun (i : ℕ) =>
                { id := i + 1
                  filename := screenshotName (i + 1)
                  url := "/temp/" ++ jobId ++ "/" ++ screenshotName (i + 1) }) } ∧
      extractedTimestamps (createScreenshots C filename jobId c q).1 =
        planTimestamps d c ∧
      (planTimestamps d c).Pairwise (fun a b => a ≤ b) := by
  have hn : c + 1 ≠ 0 := by omega
  rw [createScreenshots_ok C filename jobId c q d hf hp hn]
  refine ⟨rfl, ?_, planTimestamps_pairwise_le d c hd hc⟩
  unfold extractedTimestamps planTimestamps
  simp only [List.filterMap_cons, List.filterMap_append, List.filterMap_nil,
    eventTimestamp, List.append_nil]
  exact filterMap_eventTimestamp_map (List.range c.toNat)
    (fun i => pyTrunc (d / ((c : ℚ) + 1) * ((i : ℚ) + 1)))
    (fun i => pathJoin (pathJoin TEMP_DIR jobId) (screenshotName (i + 1)))
    (fun _ => q) C.extractExit

/-- C8 witness: the property instantiated at a probed duration of 6 and
`count = 2` for an `.mp4` upload. -/
theorem C8_artifacts_match_plan_witness :
    (createScreenshots (okProbe 6) "a.mp4" "j" 2 2).2 =
        .ok { jobId := "j"
              screenshotDir := "/temp/j"
              screenshots := (List.range (2 : ℤ).toNat).map (fun (i : ℕ) =>
                { id := i + 1
                  filename := screenshotName (i + 1)
                  url := "/temp/" ++ "j" ++ "/" ++ screenshotName (i + 1) }) } ∧
      extractedTimestamps (createScreenshots (okProbe 6) "a.mp4" "j" 2 2).1 =
        planTimestamps 6 2 ∧
      (planTimestamps 6 2).Pairwise (fun a b => a ≤ b) :=
  C8_artifacts_match_plan (okProbe 6) 6 "a.mp4" "j" 2 2 rfl (by decide)
    (by norm_num) (by norm_num)

/-- C9: cleanup succeeds exactly when the job directory exists; when it
does, exactly that directory is removed (the root and all other job
directories are untouched); when it does not, the filesystem is
unchanged and the caller receives HTTP 404 "Job not found". -/
theorem C9_cleanup_spec (fs : FS) (jobId : String) :
    ((∃ msg, (cleanupScreenshots fs jobId).2 = .ok msg) ↔ jobId ∈ fs.jobDirs) ∧
    (jobId ∈ fs.jobDirs →
      jobId ∉ (cleanupScreenshots fs jobId).1.jobDirs ∧
      (cleanupScreenshots fs jobId).1.tempRootExists = fs.tempRootExists ∧
      ∀ other, other ≠ jobId →
        (other ∈ (cleanupScreenshots fs jobId).1.jobDirs ↔ other ∈ fs.jobDirs)) ∧
    (jobId ∉ fs.jobDirs →
      cleanupScreenshots fs jobId =
        (fs, .error (HttpError.httpException 404 "Job not found"))) := by
  by_cases h : jobId ∈ fs.jobDirs
  · unfold cleanupScreenshots
    rw [if_pos h]
    refine ⟨⟨fun _ => h, fun _ => ⟨"Cleaned up job " ++ jobId, rfl⟩⟩, ?_, ?_⟩
    · intro _
      refine ⟨by simp [List.mem_filter], rfl, ?_⟩
      intro other hother
      simp [List.mem_filter, hother]
    · intro hcontra
      exact absurd h hcontra
  · unfold cleanupScreenshots
    rw [if_neg h]
    exact ⟨⟨fun ⟨msg, hmsg⟩ => by simp at hmsg, fun hmem => absurd hmem h⟩,
      fun hmem => absurd hmem h, fun _ => rfl⟩

/-- C9 witness: cleanup of the known job `j1` removes its directory;
cleanup of the unknown job `j2` leaves the filesystem unchanged and
returns 404. -/
theorem C9_cleanup_spec_witness :
    "j1" ∉ (cleanupScreenshots { tempRootExists := true, jobDirs := ["j1"] } "j1").1.jobDirs ∧
    cleanupScreenshots { tempRootExists := true, jobDirs := ["j1"] } "j2" =
      ({ tempRootExists := true, jobDirs := ["j1"] },
        .error (HttpError.httpException 404 "Job not found")) :=
  ⟨((C9_cleanup_spec { tempRootExists := true, jobDirs := ["j1"] } "j1").2.1
      (by decide)).1,
    (C9_cleanup_spec { tempRootExists := true, jobDirs := ["j1"] } "j2").2.2
      (by decide)⟩

/-- C10 counterexample: an upload with `num_screenshots = -1` does not
succeed — `duration / (num_screenshots + 1)` raises `ZeroDivisionError`,
surfaced as HTTP 500, refuting the claim that every negative count
succeeds with an empty list. -/
theorem C10_counterexample :
    (createScreenshots (okProbe 10) "v.mp4" "j" (-1) 2).2 =
      .error (HttpError.httpException 500
        "Error processing video: float division by zero") := by decide

/-- C10 (amended): for a well-formed upload with probed duration,
`count ≤ -2` succeeds with an empty screenshot list and no extraction
attempted, while `count = -1` fails with HTTP 500 from the
division-by-zero — the negative range is unvalidated but not uniformly
successful. -/
theorem C10_negative_count_amended (C : Collab) (d : ℚ) (filename jobId : String)
    (c q : ℤ) (hp : C.probeResult = .ok d) (hf : allowedFilename filename = true) :
    (c ≤ -2 →
      (createScreenshots C filename jobId c q).2 =
          .ok { jobId := jobId, screenshotDir := "/temp/" ++ jobId, screenshots := [] } ∧
        extractedTimestamps (createScreenshots C filename jobId c q).1 = []) ∧
    (c = -1 →
      (createScreenshots C filename jobId c q).2 =
        .error (HttpError.httpException 500
          "Error processing video: float division by zero")) := by
  constructor
  · intro hc
    have hn : c + 1 ≠ 0 := by omega
    have h0 : c.toNat = 0 := Int.toNat_eq_zero.mpr (by omega)
    rw [createScreenshots_ok C filename jobId c q d hf hp hn]
    rw [h0]
    constructor
    · rfl
    · simp [extractedTimestamps, eventTimestamp]
  · intro he
    subst he
    have hpv : processVideo C (pathJoin (pathJoin TEMP_DIR jobId) filename)
        (pathJoin TEMP_DIR jobId) (-1) q =
        ([Event.probe (pathJoin (pathJoin TEMP_DIR jobId) filename)],
          .error PyError.zeroDivisionError) := by
      simp only [processVideo, hp]
      rw [if_pos (by norm_num)]
    simp only [createScreenshots, hf, Bool.true_eq_false, if_false, hpv, pyErrorMessage]
    rfl

/-- C10 witness: the amended statement instantiated at `count = -2`. -/
theorem C10_negative_count_amended_witness :
    (createScreenshots (okProbe 9) "b.mp4" "j" (-2) 2).2 =
        .ok { jobId := "j", screenshotDir := "/temp/" ++ "j", screenshots := [] } ∧
      extractedTimestamps (createScreenshots (okProbe 9) "b.mp4" "j" (-2) 2).1 = [] :=
  (C10_negative_count_amended (okProbe 9) 9 "b.mp4" "j" (-2) 2 rfl (by decide)).1
    (by norm_num)

end ScreenshotApi
